import Mathlib

/-!
Shallow embedding of the `journal_paper` repository
(src/src/jp/core/JournalPaper.py) and proofs about its document-assembly
and build-orchestration pipeline.

Conventions of the embedding:
* A paper directory is modelled by `PaperDir`: the parsed content of
  `metadata.json` when that file exists, the `*.tex` file names in the order
  the filesystem enumerates them, and whether `refs.bib` exists.
* The pylatex `Document` is modelled structurally: each
  `doc.packages.append` / `doc.preamble.append` / `doc.append` call of the
  source appends one structured item; `Document.render` produces the
  composed source text from the structured items.
* LaTeX braces inside string literals are written with the escapes
  \x7b and \x7d (which denote the characters U+007B and U+007D).
* The subprocess layer is modelled by a trace of events: the exit status and
  captured stdout of each external tool invocation are inputs (`ToolRuns`),
  and `compile_with_bibliography` / `build` return the list of events
  (tool invocations, printed lines, filesystem operations) together with the
  raised error, if any.  `subprocess.run` is always called without an `env`
  argument in the source, so every child process inherits the parent
  environment; the parent environment is threaded through `build` unchanged,
  mirroring the absence of any `os.environ` write in the source.
-/

/-- Left brace character U+007B as a string, for building LaTeX text. -/
def lb : String := "\x7b"

/-- Right brace character U+007D as a string, for building LaTeX text. -/
def rb : String := "\x7d"

/-- An author record of `metadata.json`: the source reads
`author.get("name", "")` (so `name` may be missing) and optionally
`author["email"]`. -/
structure Author where
  name : Option String
  email : Option String
deriving DecidableEq, Repr

/-- The parsed content of `metadata.json`, a JSON object with the recognized
keys `title`, `subtitle` and `authors`; `otherKeys` records any unrecognized
keys so that Python dict truthiness (`if not self.metadata`) is faithful. -/
structure Metadata where
  title : Option String
  subtitle : Option String
  authors : Option (List Author)
  otherKeys : List String
deriving DecidableEq, Repr

/-- Python truthiness of the metadata dict: an empty dict is falsy. -/
def Metadata.isEmpty (m : Metadata) : Bool :=
  m.title.isNone && m.subtitle.isNone && m.authors.isNone && m.otherKeys.isEmpty

/-- The empty JSON object. -/
def Metadata.empty : Metadata := ⟨none, none, none, []⟩

/-- A paper directory as the source observes it. -/
structure PaperDir where
  dirPath : String
  /-- Content of `metadata.json` when the file exists, `none` otherwise. -/
  metadataJson : Option Metadata
  /-- Names of the `*.tex` files, in filesystem enumeration order. -/
  texFileNames : List String
  /-- Whether `refs.bib` exists in the directory. -/
  hasRefsBib : Bool
deriving DecidableEq, Repr

/-- `JournalPaper.load_metadata`: parse `metadata.json` if it exists, else
return the empty dict. -/
def load_metadata (d : PaperDir) : Metadata :=
  match d.metadataJson with
  | some m => m
  | none => Metadata.empty

/-- `JournalPaper.get_tex_files`: `sorted(Path(self.dir_path).glob("*.tex"))`.
Python's `sorted` is a stable sort; on fully compared string keys any
sorted permutation is unique, so insertion sort is extensionally identical. -/
def get_tex_files (d : PaperDir) : List String :=
  List.insertionSort (· ≤ ·) d.texFileNames

/-- An item of the document preamble (pylatex `Package`, raw `NoEscape` text,
or a `Command`). -/
inductive PreambleItem where
  | usepackage (options : List String) (name : String)
  | raw (s : String)
  | titleCmd (text : String)
  | authorCmd (text : String)
deriving DecidableEq, Repr

/-- An item appended to the document body by `_add_document_content`. -/
inductive BodyItem where
  | maketitle
  | inputFragment (name : String)
  | bibliographyStyle (style : String)
  | bibliographySrc (path : String)
deriving DecidableEq, Repr

/-- The pylatex `Document`: package declarations, preamble, body. -/
structure Document where
  packages : List PreambleItem
  preamble : List PreambleItem
  body : List BodyItem
deriving DecidableEq, Repr

/-- The `\lstset` configuration block appended verbatim by `_setup_packages`. -/
def lstsetBlock : String :=
  "\n\\lstset" ++ lb ++ "\n    backgroundcolor=\\color" ++ lb ++ "gray!10" ++ rb
    ++ ",\n    basicstyle=\\ttfamily\\small,\n    breaklines=true,\n    keywordstyle=\\color"
    ++ lb ++ "blue" ++ rb ++ ",\n    commentstyle=\\color" ++ lb ++ "green!40!black" ++ rb
    ++ ",\n    stringstyle=\\color" ++ lb ++ "orange" ++ rb
    ++ ",\n    frame=single\n" ++ rb ++ "\n"

/-- `JournalPaper._setup_packages`: the fixed set of packages and the listings
configuration, invariant across all builds. -/
def setup_packages (doc : Document) : Document :=
  { doc with
    packages := doc.packages ++
      [ .usepackage [] "xcolor"
      , .raw ("\\usepackage[preprint]" ++ lb ++ "neurips_2023" ++ rb)
      , .usepackage ["utf8"] "inputenc"
      , .usepackage [] "amsmath"
      , .usepackage ["colorlinks=true,linkcolor=blue,citecolor=blue,urlcolor=blue"] "hyperref"
      , .usepackage [] "url"
      , .usepackage [] "booktabs"
      , .usepackage [] "amsfonts"
      , .usepackage [] "nicefrac"
      , .usepackage [] "microtype"
      , .usepackage [] "listings" ]
    preamble := doc.preamble ++ [.raw lstsetBlock] }

/-- The title text built by `_setup_title` from a present `title` value `t`:
the subtitle, when present, is appended after the forced line break
token r" \\ ". -/
def title_text (m : Metadata) (t : String) : String :=
  match m.subtitle with
  | some b => t ++ " \\\\ " ++ b
  | none => t

/-- `JournalPaper._setup_title`: returns unchanged unless `title` is a key of
the metadata; otherwise appends `Command("title", title_text)`. -/
def setup_title (m : Metadata) (doc : Document) : Document :=
  match m.title with
  | none => doc
  | some t => { doc with preamble := doc.preamble ++ [.titleCmd (title_text m t)] }

/-- The author string built for one author record: `author.get("name", "")`
followed by a `\thanks{\texttt{...}}` annotation when `email` is present. -/
def author_string (a : Author) : String :=
  (match a.name with | some n => n | none => "") ++
    (match a.email with
     | some e => "\\thanks" ++ lb ++ "\\texttt" ++ lb ++ e ++ rb ++ rb
     | none => "")

/-- `JournalPaper._setup_authors`: returns unchanged unless `authors` is a key
of the metadata; otherwise appends `Command("author", ...)` joining the
author strings with r" \and ". -/
def setup_authors (m : Metadata) (doc : Document) : Document :=
  match m.authors with
  | none => doc
  | some l =>
    { doc with preamble :=
        doc.preamble ++ [.authorCmd (String.intercalate " \\and " (l.map author_string))] }

/-- `JournalPaper._setup_title_and_authors`: a no-op when the metadata dict is
falsy (empty); otherwise runs title then authors setup. -/
def setup_title_and_authors (m : Metadata) (doc : Document) : Document :=
  if m.isEmpty then doc else setup_authors m (setup_title m doc)

/-- `JournalPaper.create_document`: `Document(documentclass="article")`, then
packages, then title and authors. -/
def create_document (m : Metadata) : Document :=
  setup_title_and_authors m (setup_packages ⟨[], [], []⟩)

/-- `JournalPaper._add_document_content`: `\maketitle` iff the metadata dict
is truthy, one `\input{../name}` per tex file in the given order, then the
two bibliography directives, unconditionally. -/
def add_document_content (m : Metadata) (texFiles : List String) (doc : Document) : Document :=
  let doc := if m.isEmpty then doc else { doc with body := doc.body ++ [.maketitle] }
  let doc := { doc with body := doc.body ++ texFiles.map BodyItem.inputFragment }
  { doc with body := doc.body ++ [.bibliographyStyle "plainnat", .bibliographySrc "../refs"] }

/-- The composed document that `build` assembles for a paper directory. -/
def composedDoc (d : PaperDir) : Document :=
  add_document_content (load_metadata d) (get_tex_files d)
    (create_document (load_metadata d))

/-- Rendering of a preamble item to LaTeX source text. -/
def PreambleItem.render : PreambleItem → String
  | .usepackage opts name =>
      "\\usepackage" ++
        (match opts with
         | [] => ""
         | _ => "[" ++ String.intercalate "," opts ++ "]") ++ lb ++ name ++ rb
  | .raw s => s
  | .titleCmd t => "\\title" ++ lb ++ t ++ rb
  | .authorCmd a => "\\author" ++ lb ++ a ++ rb

/-- Rendering of a body item to LaTeX source text. -/
def BodyItem.render : BodyItem → String
  | .maketitle => "\\maketitle"
  | .inputFragment n => "\\input" ++ lb ++ "../" ++ n ++ rb
  | .bibliographyStyle s => "\\bibliographystyle" ++ lb ++ s ++ rb
  | .bibliographySrc p => "\\bibliography" ++ lb ++ p ++ rb

/-- Rendering of the whole document: the composed source text written by
`doc.generate_tex`. -/
def Document.render (doc : Document) : String :=
  String.intercalate "\n"
    ((("\\documentclass" ++ lb ++ "article" ++ rb) ::
        doc.packages.map PreambleItem.render) ++
      doc.preamble.map PreambleItem.render ++
      [("\\begin" ++ lb ++ "document" ++ rb)] ++
      doc.body.map BodyItem.render ++
      [("\\end" ++ lb ++ "document" ++ rb)])

/-- The composed source text for a paper directory. -/
def composedText (d : PaperDir) : String :=
  (composedDoc d).render

/-- Whether a body item is the title-block (`\maketitle`) directive. -/
def BodyItem.isMaketitle : BodyItem → Bool
  | .maketitle => true
  | _ => false

/-- Whether a body item is a bibliography-style directive. -/
def BodyItem.isBibStyle : BodyItem → Bool
  | .bibliographyStyle _ => true
  | _ => false

/-- Whether a body item is a bibliography-source directive. -/
def BodyItem.isBibSrc : BodyItem → Bool
  | .bibliographySrc _ => true
  | _ => false

/-- The fragment name of an inclusion directive, `none` for other items. -/
def BodyItem.inputName? : BodyItem → Option String
  | .inputFragment n => some n
  | _ => none

/-- Whether a preamble item is a `\title` command. -/
def PreambleItem.isTitleCmd : PreambleItem → Bool
  | .titleCmd _ => true
  | _ => false

/-- Whether a preamble item is an `\author` command. -/
def PreambleItem.isAuthorCmd : PreambleItem → Bool
  | .authorCmd _ => true
  | _ => false

/-- The observable result of one `subprocess.run` call with
`capture_output=True`: the exit status and the captured standard output. -/
structure ToolResult where
  returncode : Int
  stdout : String
deriving DecidableEq, Repr

/-- The outcomes the external tools would produce for the (up to) four
invocations of `_compile_with_bibliography`, in order. -/
structure ToolRuns where
  pdflatex1 : ToolResult
  bibtex : ToolResult
  pdflatex2 : ToolResult
  pdflatex3 : ToolResult
deriving DecidableEq, Repr

/-- An environment is a list of variable/value pairs. -/
abbrev Env := List (String × String)

/-- An observable event of `_compile_with_bibliography`: a tool invocation
(recording the environment the child process receives) or a printed line. -/
inductive CompileEvent where
  | pdflatexRun (passNo : Nat) (childEnv : Env)
  | bibtexRun (childEnv : Env)
  | printLine (s : String)
deriving DecidableEq, Repr

/-- An error raised by `_compile_with_bibliography`: the explicit
`RuntimeError` of pass 1, or the `CalledProcessError` raised by
`check=True` on passes 2 and 3 (which carries the captured stdout as an
attribute but does not include it in its message). -/
inductive CompileError where
  | runtimeError (msg : String)
  | calledProcessError (passNo : Nat) (returncode : Int) (stdout : String)
deriving DecidableEq, Repr

/-- The message a raised error surfaces (Python `str(e)`, which is what an
uncaught exception's traceback shows): `CalledProcessError.__str__` reports
only the command and exit status, never the captured output. -/
def CompileError.message : CompileError → String
  | .runtimeError m => m
  | .calledProcessError _ rc _ =>
      "Command pdflatex returned non-zero exit status " ++ toString rc ++ "."

/-- Python `s[-n:]`: the last `n` characters of `s` (all of `s` if shorter). -/
def lastChars (n : Nat) (s : String) : String :=
  ⟨s.data.drop (s.data.length - n)⟩

/-- `JournalPaper._compile_with_bibliography` as a function of the tool
outcomes: the event trace and the raised error, if any.  Every
`subprocess.run` call passes no `env` argument, so each child receives the
parent environment `env` unchanged. -/
def compile_with_bibliography (env : Env) (runs : ToolRuns) :
    List CompileEvent × Option CompileError :=
  let ev := [CompileEvent.printLine "Running pdflatex (pass 1/3)...",
             CompileEvent.pdflatexRun 1 env]
  if runs.pdflatex1.returncode ≠ 0 then
    (ev ++ [CompileEvent.printLine "First pdflatex pass failed:",
            CompileEvent.printLine (lastChars 2000 runs.pdflatex1.stdout)],
     some (.runtimeError "pdflatex compilation failed"))
  else
    let ev := ev ++ [CompileEvent.printLine "Running bibtex...",
                     CompileEvent.bibtexRun env]
    let ev := if runs.bibtex.returncode ≠ 0 then
        ev ++ [CompileEvent.printLine "BibTeX warnings/errors (continuing anyway)"]
      else ev
    let ev := ev ++ [CompileEvent.printLine "Running pdflatex (pass 2/3)...",
                     CompileEvent.pdflatexRun 2 env]
    if runs.pdflatex2.returncode ≠ 0 then
      (ev, some (.calledProcessError 2 runs.pdflatex2.returncode runs.pdflatex2.stdout))
    else
      let ev := ev ++ [CompileEvent.printLine "Running pdflatex (pass 3/3)...",
                       CompileEvent.pdflatexRun 3 env]
      if runs.pdflatex3.returncode ≠ 0 then
        (ev, some (.calledProcessError 3 runs.pdflatex3.returncode runs.pdflatex3.stdout))
      else (ev, none)

/-- An external tool invocation, abstracted from its environment. -/
inductive ToolCall where
  | pdflatex (passNo : Nat)
  | bibtex
deriving DecidableEq, Repr

/-- The tool invocation of a compile event, if it is one. -/
def CompileEvent.toolCall? : CompileEvent → Option ToolCall
  | .pdflatexRun n _ => some (.pdflatex n)
  | .bibtexRun _ => some .bibtex
  | .printLine _ => none

/-- The sequence of tool invocations in a compile event trace. -/
def toolCallsOf (evts : List CompileEvent) : List ToolCall :=
  evts.filterMap CompileEvent.toolCall?

/-- The printed line of a compile event, if it is one. -/
def CompileEvent.printed? : CompileEvent → Option String
  | .printLine s => some s
  | _ => none

/-- Everything a failed or successful compile surfaces to the user: the
printed lines, followed by the raised error's message. -/
def surfacedLines (r : List CompileEvent × Option CompileError) : List String :=
  r.1.filterMap CompileEvent.printed? ++ (r.2.map CompileError.message).toList

/-- An observable event of `JournalPaper.build`: filesystem operations and
the compile-phase events. -/
inductive BuildEvent where
  | rmtreeIgnoreErrors (path : String)
  | makedirs (path : String)
  | copyFile (src dst : String)
  | writeTexFile (path : String) (contents : String)
  | compile (e : CompileEvent)
deriving DecidableEq, Repr

/-- Whether a build event writes the composed tex source. -/
def BuildEvent.isWriteTex : BuildEvent → Bool
  | .writeTexFile _ _ => true
  | _ => false

/-- The environment passed to the child process of a build event, when the
event is an external tool invocation. -/
def BuildEvent.childEnv? : BuildEvent → Option Env
  | .compile (.pdflatexRun _ e) => some e
  | .compile (.bibtexRun e) => some e
  | _ => none

/-- An error raised by `build`: the failed assertion on `refs.bib`, or an
error propagated from the compile phase. -/
inductive BuildError where
  | assertionError (msg : String)
  | compileError (e : CompileError)
deriving DecidableEq, Repr

/-- The result of a build: the event trace, the raised error if any, and the
parent-process environment after the build returns. -/
structure BuildResult where
  events : List BuildEvent
  error : Option BuildError
  finalEnv : Env
deriving DecidableEq, Repr

/-- The `__compiled` build-output subdirectory of a paper directory. -/
def compiledDir (d : PaperDir) : String :=
  d.dirPath ++ "/__compiled"

/-- `JournalPaper.build` as a function of the paper directory, the shared
style directory (computed in the source from `__file__`), whether
`neurips_2023.sty` exists there, and the tool outcomes.  The source never
writes `os.environ`, so the parent environment `env` is returned unchanged
on every path and is what each child process inherits. -/
def build (env : Env) (d : PaperDir) (commonDir : String) (styExists : Bool)
    (runs : ToolRuns) : BuildResult :=
  if d.hasRefsBib = false then
    { events := []
    , error := some (.assertionError "refs.bib file is required for bibliography.")
    , finalEnv := env }
  else
    let cd := compiledDir d
    let ev := [BuildEvent.rmtreeIgnoreErrors cd, BuildEvent.makedirs cd]
    let ev := if styExists then
        ev ++ [BuildEvent.copyFile (commonDir ++ "/neurips_2023.sty") cd]
      else ev
    let ev := ev ++ [BuildEvent.writeTexFile (cd ++ "/main.tex") (composedText d)]
    let c := compile_with_bibliography env runs
    { events := ev ++ c.1.map BuildEvent.compile
    , error := c.2.map BuildError.compileError
    , finalEnv := env }

/-! ### Helper lemmas -/

/-- Sorting is invariant under permutation of the input: with an
antisymmetric total order there is exactly one sorted permutation. -/
lemma insertionSort_perm_congr {l₁ l₂ : List String} (h : l₁.Perm l₂) :
    List.insertionSort (· ≤ ·) l₁ = List.insertionSort (· ≤ ·) l₂ :=
  List.eq_of_perm_of_sorted
    ((List.perm_insertionSort _ l₁).trans (h.trans (List.perm_insertionSort _ l₂).symm))
    (List.sorted_insertionSort _ l₁) (List.sorted_insertionSort _ l₂)

/-- Package setup does not touch the document body. -/
lemma setup_packages_body (doc : Document) : (setup_packages doc).body = doc.body := rfl

/-- Title setup does not touch the document body. -/
lemma setup_title_body (m : Metadata) (doc : Document) :
    (setup_title m doc).body = doc.body := by
  cases h : m.title <;> simp [setup_title, h]

/-- Author setup does not touch the document body. -/
lemma setup_authors_body (m : Metadata) (doc : Document) :
    (setup_authors m doc).body = doc.body := by
  cases h : m.authors <;> simp [setup_authors, h]

/-- The assembled document before content addition has an empty body. -/
lemma create_document_body (m : Metadata) : (create_document m).body = [] := by
  by_cases h : m.isEmpty <;>
    simp [create_document, setup_title_and_authors, h, setup_authors_body,
      setup_title_body, setup_packages_body]

/-- The structure of the composed document body: an optional title-block
directive, the inclusion directives in sorted order, then the two
bibliography directives. -/
lemma composedDoc_body (d : PaperDir) :
    (composedDoc d).body =
      (if (load_metadata d).isEmpty then ([] : List BodyItem) else [.maketitle]) ++
        (get_tex_files d).map BodyItem.inputFragment ++
        [.bibliographyStyle "plainnat", .bibliographySrc "../refs"] := by
  by_cases h : (load_metadata d).isEmpty <;>
    simp [composedDoc, add_document_content, h, create_document_body]

/-- Extracting the inclusion-directive names from a list of inclusion
directives recovers the names. -/
lemma filterMap_inputName_map (l : List String) :
    (l.map BodyItem.inputFragment).filterMap BodyItem.inputName? = l := by
  induction l with
  | nil => rfl
  | cons a t ih => simp [BodyItem.inputName?, ih]

/-! ### C3: fragment inclusion order -/

/-- C3: for every pair of directory enumerations of the same fragment set,
the composed document body contains exactly one inclusion directive per
discovered fragment (extracting the inclusion-directive names from the body
yields exactly the discovered fragment list), these directives appear in
lexicographic filename order, and the result is independent of the order in
which the filesystem enumerates the entries. -/
theorem fragment_inclusion_order (d d' : PaperDir)
    (hperm : d.texFileNames.Perm d'.texFileNames) :
    (composedDoc d).body.filterMap BodyItem.inputName? = get_tex_files d ∧
    (get_tex_files d).Sorted (· ≤ ·) ∧
    (get_tex_files d).Perm d.texFileNames ∧
    get_tex_files d = get_tex_files d' := by
  refine ⟨?_, List.sorted_insertionSort _ _, List.perm_insertionSort _ _,
    insertionSort_perm_congr hperm⟩
  rw [composedDoc_body, List.filterMap_append, List.filterMap_append,
    filterMap_inputName_map]
  by_cases h : (load_metadata d).isEmpty <;>
    simp [h, BodyItem.inputName?]

/-- Witness for C3 at a concrete directory pair with permuted enumerations. -/
theorem fragment_inclusion_order_witness :
    (composedDoc ⟨"p", none, ["b.tex", "a.tex"], true⟩).body.filterMap BodyItem.inputName? =
        get_tex_files ⟨"p", none, ["b.tex", "a.tex"], true⟩ ∧
      (get_tex_files ⟨"p", none, ["b.tex", "a.tex"], true⟩).Sorted (· ≤ ·) ∧
      (get_tex_files ⟨"p", none, ["b.tex", "a.tex"], true⟩).Perm ["b.tex", "a.tex"] ∧
      get_tex_files ⟨"p", none, ["b.tex", "a.tex"], true⟩ =
        get_tex_files ⟨"p", none, ["a.tex", "b.tex"], true⟩ :=
  fragment_inclusion_order ⟨"p", none, ["b.tex", "a.tex"], true⟩
    ⟨"p", none, ["a.tex", "b.tex"], true⟩ (by decide)

/-! ### C9: deterministic assembly -/

/-- C9: the composed source text is a deterministic function of the metadata
and the fragment name multiset: two builds over an unchanged paper directory
(whose filesystem may enumerate the fragments in different orders) produce
byte-identical composed source text. -/
theorem assembly_deterministic (d d' : PaperDir)
    (hmeta : d.metadataJson = d'.metadataJson)
    (hperm : d.texFileNames.Perm d'.texFileNames) :
    composedText d = composedText d' := by
  have hm : load_metadata d = load_metadata d' := by
    simp [load_metadata, hmeta]
  have hf : get_tex_files d = get_tex_files d' := insertionSort_perm_congr hperm
  simp [composedText, composedDoc, hm, hf]

/-- Witness for C9 at a concrete directory pair with permuted enumerations. -/
theorem assembly_deterministic_witness :
    composedText ⟨"p", some ⟨some "T", none, none, []⟩, ["b.tex", "a.tex"], true⟩ =
      composedText ⟨"q", some ⟨some "T", none, none, []⟩, ["a.tex", "b.tex"], false⟩ :=
  assembly_deterministic _ _ rfl (by decide)

/-- Components of an empty metadata dict. -/
lemma Metadata.isEmpty_fields {m : Metadata} (h : m.isEmpty = true) :
    m.title = none ∧ m.subtitle = none ∧ m.authors = none ∧ m.otherKeys = [] := by
  rcases m with ⟨t, s, a, o⟩
  simp only [Metadata.isEmpty, Bool.and_eq_true, Option.isNone_iff_eq_none,
    List.isEmpty_iff] at h
  exact ⟨h.1.1.1, h.1.1.2, h.1.2, h.2⟩

/-- The structure of the assembled preamble: the listings block, then the
title command when the `title` key exists, then the author command when the
`authors` key exists. -/
lemma create_document_preamble (m : Metadata) :
    (create_document m).preamble =
      [PreambleItem.raw lstsetBlock] ++
        (match m.title with
         | some t => [PreambleItem.titleCmd (title_text m t)]
         | none => []) ++
        (match m.authors with
         | some l => [PreambleItem.authorCmd
             (String.intercalate " \\and " (l.map author_string))]
         | none => []) := by
  by_cases h : m.isEmpty
  · obtain ⟨ht, _, ha, _⟩ := Metadata.isEmpty_fields h
    simp [create_document, setup_title_and_authors, h, ht, ha, setup_packages]
  · cases ht : m.title <;> cases ha : m.authors <;>
      simp [create_document, setup_title_and_authors, h, setup_title,
        setup_authors, ht, ha, setup_packages]

/-- Inclusion directives never count toward a predicate that rejects them. -/
lemma countP_map_inputFragment (p : BodyItem → Bool)
    (hp : ∀ n, p (BodyItem.inputFragment n) = false) (l : List String) :
    (l.map BodyItem.inputFragment).countP p = 0 := by
  induction l with
  | nil => rfl
  | cons a t ih => simp [List.countP_cons, hp, ih]

/-! ### C4: strict metadata gating -/

/-- C4: when no metadata is loaded (the dict is empty), no title command, no
author command and no title-block directive are emitted; when the metadata
lacks the `authors` key, no author command is emitted; when `title` is
present, the title command is emitted. -/
theorem metadata_gating (m : Metadata) (fs : List String) :
    (m.isEmpty = true →
      (create_document m).preamble.countP PreambleItem.isTitleCmd = 0 ∧
      (create_document m).preamble.countP PreambleItem.isAuthorCmd = 0 ∧
      (add_document_content m fs (create_document m)).body.countP
        BodyItem.isMaketitle = 0) ∧
    (m.authors = none →
      (create_document m).preamble.countP PreambleItem.isAuthorCmd = 0) ∧
    (∀ t, m.title = some t →
      PreambleItem.titleCmd (title_text m t) ∈ (create_document m).preamble) := by
  refine ⟨fun h => ⟨?_, ?_, ?_⟩, fun ha => ?_, fun t ht => ?_⟩
  · obtain ⟨ht, _, ha, _⟩ := Metadata.isEmpty_fields h
    simp [create_document_preamble, ht, ha, PreambleItem.isTitleCmd]
  · obtain ⟨ht, _, ha, _⟩ := Metadata.isEmpty_fields h
    simp [create_document_preamble, ht, ha, PreambleItem.isAuthorCmd]
  · rw [show (add_document_content m fs (create_document m)).body =
        (if m.isEmpty then ([] : List BodyItem) else [.maketitle]) ++
          fs.map BodyItem.inputFragment ++
          [.bibliographyStyle "plainnat", .bibliographySrc "../refs"] by
      by_cases hm : m.isEmpty <;>
        simp [add_document_content, hm, create_document_body]]
    simp [h, List.countP_append, BodyItem.isMaketitle,
      countP_map_inputFragment BodyItem.isMaketitle (fun _ => rfl)]
  · cases ht : m.title <;>
      simp [create_document_preamble, ht, ha, PreambleItem.isAuthorCmd]
  · cases ha : m.authors <;>
      simp [create_document_preamble, ht, ha]

/-- Witness for C4 at empty metadata, at metadata lacking `authors`, and at
metadata carrying a title. -/
theorem metadata_gating_witness :
    ((create_document Metadata.empty).preamble.countP PreambleItem.isTitleCmd = 0 ∧
      (create_document Metadata.empty).preamble.countP PreambleItem.isAuthorCmd = 0 ∧
      (add_document_content Metadata.empty ["a.tex"]
        (create_document Metadata.empty)).body.countP BodyItem.isMaketitle = 0) ∧
    (create_document ⟨some "T", none, none, []⟩).preamble.countP
      PreambleItem.isAuthorCmd = 0 ∧
    PreambleItem.titleCmd (title_text ⟨some "T", none, none, []⟩ "T") ∈
      (create_document ⟨some "T", none, none, []⟩).preamble :=
  ⟨(metadata_gating Metadata.empty ["a.tex"]).1 rfl,
   (metadata_gating ⟨some "T", none, none, []⟩ []).2.1 rfl,
   (metadata_gating ⟨some "T", none, none, []⟩ []).2.2 "T" rfl⟩

/-! ### C8: subtitle concatenation -/

/-- C8: with title "A" and subtitle "B" the emitted title text is exactly
"A" followed by the forced line break token followed by "B" (so the break
token occurs between them), and the corresponding title command is emitted;
with a title and no subtitle the emitted title text is exactly the title, so
it contains the break token only if the title itself does. -/
theorem subtitle_line_break (m : Metadata) (A : String) :
    (∀ B, m.title = some A → m.subtitle = some B →
      title_text m A = A ++ " \\\\ " ++ B ∧
      PreambleItem.titleCmd (A ++ " \\\\ " ++ B) ∈ (create_document m).preamble ∧
      "\\\\".data <:+: (title_text m A).data) ∧
    (m.title = some A → m.subtitle = none →
      title_text m A = A ∧
      PreambleItem.titleCmd A ∈ (create_document m).preamble ∧
      (¬ "\\\\".data <:+: A.data → ¬ "\\\\".data <:+: (title_text m A).data)) := by
  constructor
  · intro B ht hs
    have htt : title_text m A = A ++ " \\\\ " ++ B := by simp [title_text, hs]
    refine ⟨htt, ?_, ?_⟩
    · cases ha : m.authors <;> simp [create_document_preamble, ht, ha, htt]
    · rw [htt]
      have h1 : "\\\\".data <:+: " \\\\ ".data := by decide
      have h2 : " \\\\ ".data <:+: (A ++ " \\\\ " ++ B).data := by
        have : (A ++ " \\\\ " ++ B).data = A.data ++ " \\\\ ".data ++ B.data := by
          simp [String.data_append]
        rw [this]
        exact List.infix_append A.data " \\\\ ".data B.data
      exact h1.trans h2
  · intro ht hs
    have htt : title_text m A = A := by simp [title_text, hs]
    refine ⟨htt, ?_, ?_⟩
    · cases ha : m.authors <;> simp [create_document_preamble, ht, ha, htt]
    · rw [htt]
      exact fun h => h

/-- Witness for C8 at concrete metadata with and without a subtitle. -/
theorem subtitle_line_break_witness :
    (title_text ⟨some "A", some "B", none, []⟩ "A" = "A" ++ " \\\\ " ++ "B" ∧
      PreambleItem.titleCmd ("A" ++ " \\\\ " ++ "B") ∈
        (create_document ⟨some "A", some "B", none, []⟩).preamble ∧
      "\\\\".data <:+: (title_text ⟨some "A", some "B", none, []⟩ "A").data) ∧
    (title_text ⟨some "A", none, none, []⟩ "A" = "A" ∧
      PreambleItem.titleCmd "A" ∈
        (create_document ⟨some "A", none, none, []⟩).preamble ∧
      (¬ "\\\\".data <:+: "A".data →
        ¬ "\\\\".data <:+: (title_text ⟨some "A", none, none, []⟩ "A").data)) :=
  ⟨(subtitle_line_break ⟨some "A", some "B", none, []⟩ "A").1 "B" rfl rfl,
   (subtitle_line_break ⟨some "A", none, none, []⟩ "A").2 rfl rfl⟩

/-! ### C10: empty metadata object behaves like an absent descriptor -/

/-- C10: a present `metadata.json` holding the empty JSON object loads to the
same empty record as an absent descriptor, so in both cases no title-block
directive, no title command and no author command are emitted: file presence
alone does not gate the title block. -/
theorem empty_metadata_like_absent (d d' : PaperDir)
    (h : d.metadataJson = none) (h' : d'.metadataJson = some Metadata.empty) :
    load_metadata d = load_metadata d' ∧
    (load_metadata d').isEmpty = true ∧
    (composedDoc d').body.countP BodyItem.isMaketitle = 0 ∧
    (composedDoc d).body.countP BodyItem.isMaketitle = 0 ∧
    (create_document (load_metadata d')).preamble.countP PreambleItem.isTitleCmd = 0 ∧
    (create_document (load_metadata d')).preamble.countP PreambleItem.isAuthorCmd = 0 := by
  have hl : load_metadata d = Metadata.empty := by simp [load_metadata, h]
  have hl' : load_metadata d' = Metadata.empty := by simp [load_metadata, h']
  have hcount : ∀ e : PaperDir, load_metadata e = Metadata.empty →
      (composedDoc e).body.countP BodyItem.isMaketitle = 0 := by
    intro e he
    rw [composedDoc_body]
    simp [he, Metadata.empty, Metadata.isEmpty, List.countP_append,
      BodyItem.isMaketitle,
      countP_map_inputFragment BodyItem.isMaketitle (fun _ => rfl)]
  refine ⟨hl.trans hl'.symm, ?_, hcount d' hl', hcount d hl, ?_, ?_⟩
  · rw [hl']; rfl
  · rw [hl']; simp [create_document_preamble, Metadata.empty, PreambleItem.isTitleCmd]
  · rw [hl']; simp [create_document_preamble, Metadata.empty, PreambleItem.isAuthorCmd]

/-- Witness for C10 at a concrete pair of directories. -/
theorem empty_metadata_like_absent_witness :
    load_metadata ⟨"p", none, [], true⟩ =
        load_metadata ⟨"p", some Metadata.empty, [], true⟩ ∧
      (load_metadata ⟨"p", some Metadata.empty, [], true⟩).isEmpty = true ∧
      (composedDoc ⟨"p", some Metadata.empty, [], true⟩).body.countP
        BodyItem.isMaketitle = 0 ∧
      (composedDoc ⟨"p", none, [], true⟩).body.countP BodyItem.isMaketitle = 0 ∧
      (create_document (load_metadata ⟨"p", some Metadata.empty, [], true⟩)).preamble.countP
        PreambleItem.isTitleCmd = 0 ∧
      (create_document (load_metadata ⟨"p", some Metadata.empty, [], true⟩)).preamble.countP
        PreambleItem.isAuthorCmd = 0 :=
  empty_metadata_like_absent ⟨"p", none, [], true⟩
    ⟨"p", some Metadata.empty, [], true⟩ rfl rfl

/-! ### C2: fatal versus tolerated failures in the compile protocol -/

/-- C2: a non-zero exit from any pdflatex pass aborts the build before any
subsequent pass is invoked (pass 1 aborts before bibtex, pass 2 and pass 3
ever run; pass 2 aborts before pass 3 runs; pass 3 raises as well), while a
non-zero exit from bibtex is only logged as a warning line, raises no error
of its own, and does not prevent pass 2 from running. -/
theorem fatal_vs_tolerated (env : Env) (runs : ToolRuns) :
    (runs.pdflatex1.returncode ≠ 0 →
      toolCallsOf (compile_with_bibliography env runs).1 = [.pdflatex 1] ∧
      (compile_with_bibliography env runs).2 =
        some (.runtimeError "pdflatex compilation failed")) ∧
    (runs.pdflatex1.returncode = 0 →
      ToolCall.bibtex ∈ toolCallsOf (compile_with_bibliography env runs).1 ∧
      ToolCall.pdflatex 2 ∈ toolCallsOf (compile_with_bibliography env runs).1) ∧
    (runs.pdflatex1.returncode = 0 → runs.bibtex.returncode ≠ 0 →
      CompileEvent.printLine "BibTeX warnings/errors (continuing anyway)" ∈
        (compile_with_bibliography env runs).1 ∧
      (runs.pdflatex2.returncode = 0 → runs.pdflatex3.returncode = 0 →
        (compile_with_bibliography env runs).2 = none)) ∧
    (runs.pdflatex1.returncode = 0 → runs.pdflatex2.returncode ≠ 0 →
      toolCallsOf (compile_with_bibliography env runs).1 =
        [.pdflatex 1, .bibtex, .pdflatex 2] ∧
      (compile_with_bibliography env runs).2 =
        some (.calledProcessError 2 runs.pdflatex2.returncode
          runs.pdflatex2.stdout)) ∧
    (runs.pdflatex1.returncode = 0 → runs.pdflatex2.returncode = 0 →
      runs.pdflatex3.returncode ≠ 0 →
      toolCallsOf (compile_with_bibliography env runs).1 =
        [.pdflatex 1, .bibtex, .pdflatex 2, .pdflatex 3] ∧
      (compile_with_bibliography env runs).2 =
        some (.calledProcessError 3 runs.pdflatex3.returncode
          runs.pdflatex3.stdout)) := by
  refine ⟨fun h => ?_, fun h => ?_, fun h hb => ⟨?_, fun h2 h3 => ?_⟩,
    fun h h2 => ?_, fun h h2 h3 => ?_⟩
  · simp [compile_with_bibliography, h, toolCallsOf, CompileEvent.toolCall?]
  · by_cases hb : runs.bibtex.returncode = 0 <;>
    by_cases h2 : runs.pdflatex2.returncode = 0 <;>
    by_cases h3 : runs.pdflatex3.returncode = 0 <;>
      simp [compile_with_bibliography, h, hb, h2, h3, toolCallsOf,
        CompileEvent.toolCall?]
  · by_cases h2 : runs.pdflatex2.returncode = 0 <;>
    by_cases h3 : runs.pdflatex3.returncode = 0 <;>
      simp [compile_with_bibliography, h, hb, h2, h3]
  · simp [compile_with_bibliography, h, hb, h2, h3]
  · by_cases hb : runs.bibtex.returncode = 0 <;>
      simp [compile_with_bibliography, h, hb, h2, toolCallsOf,
        CompileEvent.toolCall?]
  · by_cases hb : runs.bibtex.returncode = 0 <;>
      simp [compile_with_bibliography, h, hb, h2, h3, toolCallsOf,
        CompileEvent.toolCall?]

/-- Witness for C2 at concrete tool outcomes: a failing pass 1 aborts with
only pass 1 invoked; a failing bibtex is logged, raises nothing, and does
not prevent pass 2; a failing pass 2 stops the protocol before pass 3; a
failing pass 3 raises its checked-call error. -/
theorem fatal_vs_tolerated_witness :
    (toolCallsOf (compile_with_bibliography [] ⟨⟨1, ""⟩, ⟨0, ""⟩, ⟨0, ""⟩, ⟨0, ""⟩⟩).1 =
        [.pdflatex 1] ∧
      (compile_with_bibliography [] ⟨⟨1, ""⟩, ⟨0, ""⟩, ⟨0, ""⟩, ⟨0, ""⟩⟩).2 =
        some (.runtimeError "pdflatex compilation failed")) ∧
    (ToolCall.bibtex ∈ toolCallsOf
        (compile_with_bibliography [] ⟨⟨0, ""⟩, ⟨2, ""⟩, ⟨0, ""⟩, ⟨0, ""⟩⟩).1 ∧
      ToolCall.pdflatex 2 ∈ toolCallsOf
        (compile_with_bibliography [] ⟨⟨0, ""⟩, ⟨2, ""⟩, ⟨0, ""⟩, ⟨0, ""⟩⟩).1) ∧
    (CompileEvent.printLine "BibTeX warnings/errors (continuing anyway)" ∈
        (compile_with_bibliography [] ⟨⟨0, ""⟩, ⟨2, ""⟩, ⟨0, ""⟩, ⟨0, ""⟩⟩).1 ∧
      (compile_with_bibliography [] ⟨⟨0, ""⟩, ⟨2, ""⟩, ⟨0, ""⟩, ⟨0, ""⟩⟩).2 = none) ∧
    (toolCallsOf (compile_with_bibliography [] ⟨⟨0, ""⟩, ⟨2, ""⟩, ⟨1, ""⟩, ⟨0, ""⟩⟩).1 =
        [.pdflatex 1, .bibtex, .pdflatex 2] ∧
      (compile_with_bibliography [] ⟨⟨0, ""⟩, ⟨2, ""⟩, ⟨1, ""⟩, ⟨0, ""⟩⟩).2 =
        some (.calledProcessError 2 1 "")) ∧
    (toolCallsOf (compile_with_bibliography [] ⟨⟨0, ""⟩, ⟨0, ""⟩, ⟨0, ""⟩, ⟨1, ""⟩⟩).1 =
        [.pdflatex 1, .bibtex, .pdflatex 2, .pdflatex 3] ∧
      (compile_with_bibliography [] ⟨⟨0, ""⟩, ⟨0, ""⟩, ⟨0, ""⟩, ⟨1, ""⟩⟩).2 =
        some (.calledProcessError 3 1 "")) :=
  ⟨(fatal_vs_tolerated [] ⟨⟨1, ""⟩, ⟨0, ""⟩, ⟨0, ""⟩, ⟨0, ""⟩⟩).1 (by decide),
   (fatal_vs_tolerated [] ⟨⟨0, ""⟩, ⟨2, ""⟩, ⟨0, ""⟩, ⟨0, ""⟩⟩).2.1 rfl,
   ⟨((fatal_vs_tolerated [] ⟨⟨0, ""⟩, ⟨2, ""⟩, ⟨0, ""⟩, ⟨0, ""⟩⟩).2.2.1 rfl
       (by decide)).1,
    ((fatal_vs_tolerated [] ⟨⟨0, ""⟩, ⟨2, ""⟩, ⟨0, ""⟩, ⟨0, ""⟩⟩).2.2.1 rfl
       (by decide)).2 rfl rfl⟩,
   (fatal_vs_tolerated [] ⟨⟨0, ""⟩, ⟨2, ""⟩, ⟨1, ""⟩, ⟨0, ""⟩⟩).2.2.2.1 rfl (by decide),
   (fatal_vs_tolerated [] ⟨⟨0, ""⟩, ⟨0, ""⟩, ⟨0, ""⟩, ⟨1, ""⟩⟩).2.2.2.2 rfl rfl
     (by decide)⟩

/-! ### C5: surfacing of diagnostic output (corrected) -/

/-- C5 as stated is false for passes 2 and 3; this is the amended claim: a
pass-1 failure aborts the build (raises the runtime error) and surfaces the
last 2000 characters of the tool's stdout before raising, while pass-2 and
pass-3 failures abort the build via a checked-call error whose surfaced
message depends only on the exit status, never on the captured diagnostic
output. -/
theorem diagnostics_surfacing_amended (env : Env) (runs : ToolRuns) :
    (runs.pdflatex1.returncode ≠ 0 →
      lastChars 2000 runs.pdflatex1.stdout ∈
        surfacedLines (compile_with_bibliography env runs) ∧
      (compile_with_bibliography env runs).2 =
        some (.runtimeError "pdflatex compilation failed")) ∧
    (runs.pdflatex1.returncode = 0 → runs.pdflatex2.returncode ≠ 0 →
      (compile_with_bibliography env runs).2 =
        some (.calledProcessError 2 runs.pdflatex2.returncode
          runs.pdflatex2.stdout)) ∧
    (runs.pdflatex1.returncode = 0 → runs.pdflatex2.returncode = 0 →
      runs.pdflatex3.returncode ≠ 0 →
      (compile_with_bibliography env runs).2 =
        some (.calledProcessError 3 runs.pdflatex3.returncode
          runs.pdflatex3.stdout)) ∧
    (∀ p : Nat, ∀ rc : Int, ∀ out out' : String,
      (CompileError.calledProcessError p rc out).message =
        (CompileError.calledProcessError p rc out').message) := by
  refine ⟨fun h => ⟨?_, ?_⟩, fun h h2 => ?_, fun h h2 h3 => ?_,
    fun p rc out out' => rfl⟩
  · simp [compile_with_bibliography, h, surfacedLines, CompileEvent.printed?]
  · simp [compile_with_bibliography, h]
  · by_cases hb : runs.bibtex.returncode = 0 <;>
      simp [compile_with_bibliography, h, hb, h2]
  · by_cases hb : runs.bibtex.returncode = 0 <;>
      simp [compile_with_bibliography, h, hb, h2, h3]

/-- Witness for C5 (amended) at a concrete failing pass 1, a concrete
failing pass 2 and a concrete failing pass 3. -/
theorem diagnostics_surfacing_amended_witness :
    (lastChars 2000 "boom" ∈
        surfacedLines (compile_with_bibliography []
          ⟨⟨1, "boom"⟩, ⟨0, ""⟩, ⟨0, ""⟩, ⟨0, ""⟩⟩) ∧
      (compile_with_bibliography [] ⟨⟨1, "boom"⟩, ⟨0, ""⟩, ⟨0, ""⟩, ⟨0, ""⟩⟩).2 =
        some (.runtimeError "pdflatex compilation failed")) ∧
    (compile_with_bibliography [] ⟨⟨0, ""⟩, ⟨0, ""⟩, ⟨1, "boom"⟩, ⟨0, ""⟩⟩).2 =
      some (.calledProcessError 2 1 "boom") ∧
    (compile_with_bibliography [] ⟨⟨0, ""⟩, ⟨0, ""⟩, ⟨0, ""⟩, ⟨1, "boom"⟩⟩).2 =
      some (.calledProcessError 3 1 "boom") :=
  ⟨(diagnostics_surfacing_amended [] ⟨⟨1, "boom"⟩, ⟨0, ""⟩, ⟨0, ""⟩, ⟨0, ""⟩⟩).1
      (by decide),
   (diagnostics_surfacing_amended [] ⟨⟨0, ""⟩, ⟨0, ""⟩, ⟨1, "boom"⟩, ⟨0, ""⟩⟩).2.1
      rfl (by decide),
   (diagnostics_surfacing_amended [] ⟨⟨0, ""⟩, ⟨0, ""⟩, ⟨0, ""⟩, ⟨1, "boom"⟩⟩).2.2.1
      rfl rfl (by decide)⟩

/-- Counterexample to C5 as stated: a fatal pass-2 failure whose captured
diagnostic output appears in none of the surfaced lines (so not even its
tail is surfaced), even though the build aborts. -/
theorem diagnostics_surfacing_cex :
    (compile_with_bibliography []
        ⟨⟨0, ""⟩, ⟨0, ""⟩, ⟨1, "! LaTeX Error: xyz"⟩, ⟨0, ""⟩⟩).2 =
      some (.calledProcessError 2 1 "! LaTeX Error: xyz") ∧
    ∀ l ∈ surfacedLines (compile_with_bibliography []
        ⟨⟨0, ""⟩, ⟨0, ""⟩, ⟨1, "! LaTeX Error: xyz"⟩, ⟨0, ""⟩⟩),
      ¬ ("! LaTeX Error: xyz".data <:+: l.data) := by
  constructor
  · rfl
  · decide

/-! ### C1: bibliography gating (corrected) -/

/-- The tool invocation of a build event, if it is one. -/
def BuildEvent.toolCall? : BuildEvent → Option ToolCall
  | .compile e => e.toolCall?
  | _ => none

/-- The sequence of external tool invocations performed by a build. -/
def buildToolCalls (r : BuildResult) : List ToolCall :=
  r.events.filterMap BuildEvent.toolCall?

/-- C1 as stated is false on the absence side; this is the amended claim:
when `refs.bib` is present, exactly one bibliography-style directive and one
bibliography-source directive appear in the composed body and the manual
3-pass-with-resolution protocol runs (pdflatex, bibtex, pdflatex, pdflatex
when no pass fails); when `refs.bib` is absent, the build raises an
assertion error before doing anything at all — the directives are emitted
unconditionally by the content step, and no internal multi-pass protocol
exists. -/
theorem bibliography_gating_amended (env : Env) (d : PaperDir)
    (cdir : String) (sty : Bool) (runs : ToolRuns) :
    (d.hasRefsBib = true →
      (composedDoc d).body.countP BodyItem.isBibStyle = 1 ∧
      (composedDoc d).body.countP BodyItem.isBibSrc = 1 ∧
      (runs.pdflatex1.returncode = 0 → runs.pdflatex2.returncode = 0 →
        runs.pdflatex3.returncode = 0 →
        buildToolCalls (build env d cdir sty runs) =
          [.pdflatex 1, .bibtex, .pdflatex 2, .pdflatex 3])) ∧
    (d.hasRefsBib = false →
      (build env d cdir sty runs).events = [] ∧
      (build env d cdir sty runs).error =
        some (.assertionError "refs.bib file is required for bibliography.")) := by
  constructor
  · intro hbib
    refine ⟨?_, ?_, fun h1 h2 h3 => ?_⟩
    · rw [composedDoc_body]
      by_cases hm : (load_metadata d).isEmpty <;>
        simp [hm, List.countP_append, BodyItem.isBibStyle,
          countP_map_inputFragment BodyItem.isBibStyle (fun _ => rfl)]
    · rw [composedDoc_body]
      by_cases hm : (load_metadata d).isEmpty <;>
        simp [hm, List.countP_append, BodyItem.isBibSrc,
          countP_map_inputFragment BodyItem.isBibSrc (fun _ => rfl)]
    · by_cases hb : runs.bibtex.returncode = 0 <;>
      by_cases hs : sty <;>
        simp [buildToolCalls, build, hbib, hs, compile_with_bibliography,
          h1, hb, h2, h3, BuildEvent.toolCall?, CompileEvent.toolCall?]
  · intro hbib
    constructor <;> simp [build, hbib]

/-- Witness for C1 (amended): a directory with `refs.bib` whose build runs
the full 3-pass protocol, and a directory without `refs.bib` whose build
raises the assertion. -/
theorem bibliography_gating_amended_witness :
    ((composedDoc ⟨"p", none, ["a.tex"], true⟩).body.countP BodyItem.isBibStyle = 1 ∧
      (composedDoc ⟨"p", none, ["a.tex"], true⟩).body.countP BodyItem.isBibSrc = 1 ∧
      buildToolCalls (build [] ⟨"p", none, ["a.tex"], true⟩ "common" true
        ⟨⟨0, ""⟩, ⟨0, ""⟩, ⟨0, ""⟩, ⟨0, ""⟩⟩) =
          [.pdflatex 1, .bibtex, .pdflatex 2, .pdflatex 3]) ∧
    ((build [] ⟨"p", none, [], false⟩ "common" true
        ⟨⟨0, ""⟩, ⟨0, ""⟩, ⟨0, ""⟩, ⟨0, ""⟩⟩).events = [] ∧
      (build [] ⟨"p", none, [], false⟩ "common" true
        ⟨⟨0, ""⟩, ⟨0, ""⟩, ⟨0, ""⟩, ⟨0, ""⟩⟩).error =
        some (.assertionError "refs.bib file is required for bibliography.")) := by
  have h1 := (bibliography_gating_amended [] ⟨"p", none, ["a.tex"], true⟩ "common"
    true ⟨⟨0, ""⟩, ⟨0, ""⟩, ⟨0, ""⟩, ⟨0, ""⟩⟩).1 rfl
  have h2 := (bibliography_gating_amended [] ⟨"p", none, [], false⟩ "common"
    true ⟨⟨0, ""⟩, ⟨0, ""⟩, ⟨0, ""⟩, ⟨0, ""⟩⟩).2 rfl
  exact ⟨⟨h1.1, h1.2.1, h1.2.2 rfl rfl rfl⟩, h2⟩

/-- Counterexample to C1 as stated: for a paper directory without
`refs.bib`, the build is an assertion failure (absence is an error and no
internal multi-pass protocol is selected: no tool is invoked at all), and
the content-assembly step still emits a bibliography-style directive. -/
theorem bibliography_gating_cex :
    (build [] ⟨"p", none, ["a.tex"], false⟩ "common" false
        ⟨⟨0, ""⟩, ⟨0, ""⟩, ⟨0, ""⟩, ⟨0, ""⟩⟩).error =
      some (.assertionError "refs.bib file is required for bibliography.") ∧
    buildToolCalls (build [] ⟨"p", none, ["a.tex"], false⟩ "common" false
      ⟨⟨0, ""⟩, ⟨0, ""⟩, ⟨0, ""⟩, ⟨0, ""⟩⟩) = [] ∧
    (composedDoc ⟨"p", none, ["a.tex"], false⟩).body.countP BodyItem.isBibStyle = 1 := by
  refine ⟨rfl, rfl, ?_⟩
  decide

/-! ### C6: environment handling (corrected) -/

/-- Whether a build event leaves the given parent environment intact for the
child process: tool invocations must pass exactly the parent environment
(no variable added or changed), and other events touch no environment. -/
def BuildEvent.envOk (env : Env) : BuildEvent → Prop
  | .compile (.pdflatexRun _ ce) => ce = env
  | .compile (.bibtexRun ce) => ce = env
  | _ => True

/-- Every compile-phase event passes the parent environment unchanged. -/
lemma compile_events_envOk (env : Env) (runs : ToolRuns) :
    ∀ e ∈ (compile_with_bibliography env runs).1.map BuildEvent.compile,
      BuildEvent.envOk env e := by
  by_cases h1 : runs.pdflatex1.returncode = 0 <;>
  by_cases hb : runs.bibtex.returncode = 0 <;>
  by_cases h2 : runs.pdflatex2.returncode = 0 <;>
  by_cases h3 : runs.pdflatex3.returncode = 0 <;>
    simp [compile_with_bibliography, h1, hb, h2, h3, BuildEvent.envOk]

/-- C6 as stated is false (no search-path environment variable is configured
anywhere); this is the amended claim: the build never mutates the parent
process environment on any path (success, compile failure, or assertion
failure) and every subprocess inherits the parent environment unchanged
with no variable added; instead of a search path, the shared style asset is
copied into the build output directory when it exists. -/
theorem environment_handling_amended (env : Env) (d : PaperDir)
    (cdir : String) (sty : Bool) (runs : ToolRuns) :
    (build env d cdir sty runs).finalEnv = env ∧
    (∀ e ∈ (build env d cdir sty runs).events, BuildEvent.envOk env e) ∧
    (sty = true → d.hasRefsBib = true →
      BuildEvent.copyFile (cdir ++ "/neurips_2023.sty") (compiledDir d) ∈
        (build env d cdir sty runs).events) := by
  by_cases hbib : d.hasRefsBib
  · refine ⟨by simp [build, hbib], ?_, fun hs _ => ?_⟩
    · intro e he
      cases e with
      | rmtreeIgnoreErrors p => trivial
      | makedirs p => trivial
      | copyFile a b => trivial
      | writeTexFile a b => trivial
      | compile c =>
        refine compile_events_envOk env runs _ ?_
        by_cases hs : sty <;> simp [build, hbib, hs] at he <;> simpa using he
    · simp [build, hbib, hs]
  · simp only [Bool.not_eq_true] at hbib
    refine ⟨by simp [build, hbib], ?_, fun _ hb => by rw [hbib] at hb; cases hb⟩
    intro e he
    simp [build, hbib] at he

/-- Witness for C6 (amended) at a concrete build with the style asset
present. -/
theorem environment_handling_amended_witness :
    (build [("HOME", "/root")] ⟨"p", none, ["a.tex"], true⟩ "common" true
        ⟨⟨0, ""⟩, ⟨0, ""⟩, ⟨0, ""⟩, ⟨0, ""⟩⟩).finalEnv = [("HOME", "/root")] ∧
    (∀ e ∈ (build [("HOME", "/root")] ⟨"p", none, ["a.tex"], true⟩ "common" true
        ⟨⟨0, ""⟩, ⟨0, ""⟩, ⟨0, ""⟩, ⟨0, ""⟩⟩).events,
      BuildEvent.envOk [("HOME", "/root")] e) ∧
    BuildEvent.copyFile "common/neurips_2023.sty"
        (compiledDir ⟨"p", none, ["a.tex"], true⟩) ∈
      (build [("HOME", "/root")] ⟨"p", none, ["a.tex"], true⟩ "common" true
        ⟨⟨0, ""⟩, ⟨0, ""⟩, ⟨0, ""⟩, ⟨0, ""⟩⟩).events := by
  have h := environment_handling_amended [("HOME", "/root")]
    ⟨"p", none, ["a.tex"], true⟩ "common" true ⟨⟨0, ""⟩, ⟨0, ""⟩, ⟨0, ""⟩, ⟨0, ""⟩⟩
  exact ⟨h.1, h.2.1, h.2.2 rfl rfl⟩

/-- Counterexample to C6 as stated: in a concrete successful build run with
an empty parent environment, every child process receives the empty
environment — no search-path environment variable pointing at the shared
style-asset directory (nor any variable at all) is configured for any tool
invocation. -/
theorem environment_handling_cex :
    ((build [] ⟨"p", none, ["a.tex"], true⟩ "common" true
        ⟨⟨0, ""⟩, ⟨0, ""⟩, ⟨0, ""⟩, ⟨0, ""⟩⟩).events.filterMap
      BuildEvent.childEnv?) = [[], [], [], []] := by
  decide

/-! ### C7: the build output directory is cleared and recreated first -/

/-- C7: on every build that passes the `refs.bib` precondition, the very
first two events clear (ignoring a missing directory) and recreate the
build output subdirectory, and the composed source is written exactly once,
strictly after them. -/
theorem build_output_cleared_first (env : Env) (d : PaperDir)
    (cdir : String) (sty : Bool) (runs : ToolRuns)
    (h : d.hasRefsBib = true) :
    ∃ mid tail,
      (build env d cdir sty runs).events =
        [BuildEvent.rmtreeIgnoreErrors (compiledDir d),
         BuildEvent.makedirs (compiledDir d)] ++ mid ++
          [BuildEvent.writeTexFile (compiledDir d ++ "/main.tex") (composedText d)] ++
          tail ∧
      (∀ e ∈ mid, e.isWriteTex = false) ∧
      (∀ e ∈ tail, e.isWriteTex = false) := by
  refine ⟨if sty then [BuildEvent.copyFile (cdir ++ "/neurips_2023.sty") (compiledDir d)]
      else [],
    (compile_with_bibliography env runs).1.map BuildEvent.compile, ?_, ?_, ?_⟩
  · by_cases hs : sty <;> simp [build, h, hs]
  · by_cases hs : sty <;> simp [hs, BuildEvent.isWriteTex]
  · intro e he
    rw [List.mem_map] at he
    obtain ⟨c, _, rfl⟩ := he
    rfl

/-- Witness for C7 at a concrete build. -/
theorem build_output_cleared_first_witness :
    ∃ mid tail,
      (build [] ⟨"p", none, ["a.tex"], true⟩ "common" false
          ⟨⟨0, ""⟩, ⟨0, ""⟩, ⟨0, ""⟩, ⟨0, ""⟩⟩).events =
        [BuildEvent.rmtreeIgnoreErrors (compiledDir ⟨"p", none, ["a.tex"], true⟩),
         BuildEvent.makedirs (compiledDir ⟨"p", none, ["a.tex"], true⟩)] ++ mid ++
          [BuildEvent.writeTexFile
            (compiledDir ⟨"p", none, ["a.tex"], true⟩ ++ "/main.tex")
            (composedText ⟨"p", none, ["a.tex"], true⟩)] ++ tail ∧
      (∀ e ∈ mid, e.isWriteTex = false) ∧
      (∀ e ∈ tail, e.isWriteTex = false) :=
  build_output_cleared_first [] ⟨"p", none, ["a.tex"], true⟩ "common" false
    ⟨⟨0, ""⟩, ⟨0, ""⟩, ⟨0, ""⟩, ⟨0, ""⟩⟩ rfl
